import Mathlib

/-
  Verification of the Mini-Conveyors-Automation co-simulation.

  Shallow embedding of the repository's core:
    * src/simulation/local_plc_logic.py  (LocalPLCLogic.scan)
    * src/simulation/process_sim.py      (ProcessSimulator: photoeyes, box motion,
                                          arrivals, jam injection, auto recovery, update loop)
    * src/simulation/opc_client.py       (the in-memory tag table and its defaults)

  Python floats are modelled as exact rationals (ℚ); the tag dictionary is a
  closed record with the defaults of OPCUAClient.TAG_DEFINITIONS; the PLC
  object's attributes form the record PLCState.  Randomness (the Python
  `random` module seeded once) is modelled as an abstract draw stream
  `rand : ℕ → ℚ` (each draw uniform in [0,1)) together with a cursor that is
  advanced exactly where the Python code consumes a draw.
-/

set_option maxHeartbeats 2000000
set_option maxRecDepth 60000

namespace Conveyor

/-- System states of PRG_Main (local_plc_logic.py, class SystemState). -/
inductive SystemState where
  | STOPPED
  | STARTING
  | RUNNING
  | FAULT
deriving DecidableEq

/-- `int(self.state)` as written to iHMI_State. -/
def SystemState.toNat : SystemState → Nat
  | .STOPPED => 0
  | .STARTING => 1
  | .RUNNING => 2
  | .FAULT => 3

/-- Fault codes (local_plc_logic.py, class FaultCode). -/
inductive FaultCode where
  | NONE
  | ESTOP
  | JAM_INFEED
  | JAM_DIVERTER
  | JAM_OUTFEED_B
  | JAM_OUTFEED_C
deriving DecidableEq

/-- FAULT_MESSAGES table. -/
def faultMessage : FaultCode → String
  | .NONE => ""
  | .ESTOP => "EMERGENCY STOP ACTIVATED"
  | .JAM_INFEED => "JAM DETECTED AT INFEED (Station A)"
  | .JAM_DIVERTER => "JAM DETECTED AT DIVERTER"
  | .JAM_OUTFEED_B => "JAM DETECTED AT OUTFEED B (Station B)"
  | .JAM_OUTFEED_C => "JAM DETECTED AT OUTFEED C (Station C)"

/-- The four photoeye sites (keys of the `_jam_timers` dict, in insertion order
infeed, diverter, outfeed_b, outfeed_c). -/
inductive Loc where
  | infeed
  | diverter
  | outfeed_b
  | outfeed_c
deriving DecidableEq

/-- Position of a site in the dict's (Python ≥3.7 insertion-order) iteration. -/
def locIdx : Loc → Nat
  | .infeed => 0
  | .diverter => 1
  | .outfeed_b => 2
  | .outfeed_c => 3

/-- JAM_* fault code for a site (the pe_map in LocalPLCLogic.scan). -/
def jamFaultCode : Loc → FaultCode
  | .infeed => .JAM_INFEED
  | .diverter => .JAM_DIVERTER
  | .outfeed_b => .JAM_OUTFEED_B
  | .outfeed_c => .JAM_OUTFEED_C

/-- The in-memory tag table (OPCUAClient._local_tags), a closed set of tags
with the default values of TAG_DEFINITIONS. -/
structure Tags where
  bStartPB : Bool := false
  bStopPB : Bool := true
  bEStop : Bool := true
  bModeSelector : Bool := false
  bInfeedPE : Bool := false
  bDiverterPE : Bool := false
  bOutfeedBPE : Bool := false
  bOutfeedCPE : Bool := false
  bConveyorMotor : Bool := false
  bDiverterActuator : Bool := false
  bAlarmBuzzer : Bool := false
  bStatusGreen : Bool := false
  bStatusRed : Bool := false
  bHMI_Start : Bool := false
  bHMI_Stop : Bool := false
  bHMI_FaultClear : Bool := false
  bHMI_JogFwd : Bool := false
  iHMI_State : Nat := 0
  sHMI_FaultMsg : String := ""
  rHMI_BoxCount : Nat := 0
  rHMI_AvgCycleTime : ℚ := 0
  rHMI_JamCount : Nat := 0
  rHMI_Throughput : ℚ := 0
  rJamTimeoutSec : ℚ := 4
  rConveyorSpeed : ℚ := 1
deriving DecidableEq

/-- The photoeye input tag of a site. -/
def peTag (t : Tags) : Loc → Bool
  | .infeed => t.bInfeedPE
  | .diverter => t.bDiverterPE
  | .outfeed_b => t.bOutfeedBPE
  | .outfeed_c => t.bOutfeedCPE

/-- LocalPLCLogic's attributes (its __init__), with the same initial values. -/
structure PLCState where
  state : SystemState := .STOPPED
  fault_code : FaultCode := .NONE
  estop_latched : Bool := false
  prev_start : Bool := false
  prev_stop : Bool := true
  prev_estop : Bool := true
  prev_fault_clear : Bool := false
  start_timer : ℚ := 0
  start_delay : ℚ := 1
  jt_infeed : ℚ := 0
  jt_diverter : ℚ := 0
  jt_outfeed_b : ℚ := 0
  jt_outfeed_c : ℚ := 0
  jam_latched : Bool := false
  jam_location : Option Loc := none
  box_counter : Nat := 0
  reject_next : Bool := false
  prev_infeed_pe : Bool := false
  prev_diverter_pe : Bool := false
  diverter_locked : Bool := false
  metrics_box_count : Nat := 0
  metrics_jam_count : Nat := 0
  cycle_active : Bool := false
  cycle_timer : ℚ := 0
  cycle_time_sum : ℚ := 0
  last_cycle_time : ℚ := 0
  running_time : ℚ := 0
  fault_time : ℚ := 0
  prev_outfeed_b : Bool := false
  prev_outfeed_c : Bool := false
  prev_jam_event : Bool := false
  prev_infeed_metrics : Bool := false
  blink_timer : ℚ := 0
  blink_on : Bool := false
deriving DecidableEq

/-- start_pb snapshot: `tags.get("bStartPB") or tags.get("bHMI_Start")`. -/
def startPb (t : Tags) : Bool := t.bStartPB || t.bHMI_Start

/-- `start_rising = start_pb and not self._prev_start`. -/
def startRising (t : Tags) (s : PLCState) : Bool := startPb t && !s.prev_start

/-- `stop_falling = self._prev_stop and not stop_pb` (NC convention). -/
def stopFalling (t : Tags) (s : PLCState) : Bool := s.prev_stop && !t.bStopPB

/-- `clear_rising = fault_clear and not self._prev_fault_clear`. -/
def clearRising (t : Tags) (s : PLCState) : Bool := t.bHMI_FaultClear && !s.prev_fault_clear

/-- The blink timer's fields (the only attributes the blink section writes). -/
structure BlinkOut where
  timer : ℚ
  bOn : Bool
deriving DecidableEq

/-- Blink timer section of scan: accumulate dt; on reaching 0.5 s reset and
toggle. -/
def blinkStep (dt timer0 : ℚ) (on0 : Bool) : BlinkOut :=
  let tm := timer0 + dt
  if 1/2 ≤ tm then ⟨0, !on0⟩ else ⟨tm, on0⟩

/-- The attributes the safety section writes. -/
structure SafetyOut where
  latched : Bool
  fault_code : FaultCode
deriving DecidableEq

/-- Section 1 (SAFETY) of scan: latch on ¬estop; on a fault-clear rising edge
with estop healthy, unlatch and clear the fault code unless a jam is
latched. -/
def safetyStep (estop cr jam_latched latched0 : Bool) (fc0 : FaultCode) : SafetyOut :=
  let l1 := if estop = false then true else latched0
  let f1 := if estop = false then FaultCode.ESTOP else fc0
  if l1 && cr && estop then
    ⟨false, if jam_latched then f1 else FaultCode.NONE⟩
  else ⟨l1, f1⟩

/-- The attributes the jam-detection section reads and writes: the four site
timers, the jam latch, its location, and the fault code. -/
structure JamSt where
  jt_infeed : ℚ
  jt_diverter : ℚ
  jt_outfeed_b : ℚ
  jt_outfeed_c : ℚ
  latched : Bool
  location : Option Loc
  fault_code : FaultCode
deriving DecidableEq

/-- `self._jam_timers[loc]`. -/
def JamSt.timer (j : JamSt) : Loc → ℚ
  | .infeed => j.jt_infeed
  | .diverter => j.jt_diverter
  | .outfeed_b => j.jt_outfeed_b
  | .outfeed_c => j.jt_outfeed_c

/-- `self._jam_timers[loc] = v`. -/
def JamSt.setTimer (j : JamSt) (l : Loc) (v : ℚ) : JamSt :=
  match l with
  | .infeed => { j with jt_infeed := v }
  | .diverter => { j with jt_diverter := v }
  | .outfeed_b => { j with jt_outfeed_b := v }
  | .outfeed_c => { j with jt_outfeed_c := v }

/-- One site of the jam-detection loop body: accumulate/reset the site's
timer, then latch if it reached the timeout and no jam is latched yet. -/
def jamStepSite (running : Bool) (dt timeout : ℚ) (pe : Loc → Bool) (j : JamSt)
    (l : Loc) : JamSt :=
  let tv := if pe l && running then j.timer l + dt else 0
  let j1 := j.setTimer l tv
  if timeout ≤ tv ∧ j1.latched = false then
    { j1 with latched := true, location := some l, fault_code := jamFaultCode l }
  else j1

/-- Section 2 (JAM DETECTION) of scan, before the clear: the pe_map loop runs
only when the (previous-scan) state is RUNNING or a jam is latched; the dict
iterates in insertion order infeed, diverter, outfeed_b, outfeed_c.  Outside
that, all four timers are forced to 0. -/
def jamDetect (t : Tags) (dt : ℚ) (stPre : SystemState) (j : JamSt) : JamSt :=
  if stPre = SystemState.RUNNING ∨ j.latched = true then
    let running := decide (stPre = SystemState.RUNNING)
    let j1 := jamStepSite running dt t.rJamTimeoutSec (peTag t) j .infeed
    let j2 := jamStepSite running dt t.rJamTimeoutSec (peTag t) j1 .diverter
    let j3 := jamStepSite running dt t.rJamTimeoutSec (peTag t) j2 .outfeed_b
    jamStepSite running dt t.rJamTimeoutSec (peTag t) j3 .outfeed_c
  else
    { j with jt_infeed := 0, jt_diverter := 0, jt_outfeed_b := 0, jt_outfeed_c := 0 }

/-- Jam clear: on a fault-clear rising edge while latched, clear only if the
PE at the latched location is unblocked (`pe_clear.get(self._jam_location,
False)`; an empty location yields False and the jam stays latched).  The
fault code is cleared unless the e-stop latch is set. -/
def jamClear (t : Tags) (cr estop_latched : Bool) (j : JamSt) : JamSt :=
  if j.latched && cr then
    match j.location with
    | some l =>
      if peTag t l = false then
        { j with latched := false, location := none,
                 fault_code := if estop_latched then j.fault_code else .NONE }
      else j
    | none => j
  else j

/-- The attributes and scan-local outputs the state-machine section writes. -/
structure SMOut where
  state : SystemState
  start_timer : ℚ
  motor_cmd : Bool
  green : Bool
  red : Bool
  alarm : Bool
deriving DecidableEq

/-- Section 3 (STATE MACHINE) of scan; `blink_on` is the blink flag as
already updated this scan. -/
def stateMachine (t : Tags) (dt : ℚ)
    (fault_active safe_to_run start_cmd stop_falling mode_manual jog_fwd : Bool)
    (st0 : SystemState) (timer0 delay : ℚ) (blink_on : Bool) : SMOut :=
  match st0 with
  | .STOPPED =>
    if start_cmd then ⟨.STARTING, 0, false, false, false, false⟩
    else ⟨.STOPPED, timer0, false, false, false, false⟩
  | .STARTING =>
    let tm := timer0 + dt
    if fault_active then ⟨.FAULT, tm, false, blink_on, false, false⟩
    else if delay ≤ tm ∧ safe_to_run = true then
      ⟨.RUNNING, tm, false, blink_on, false, false⟩
    else ⟨.STARTING, tm, false, blink_on, false, false⟩
  | .RUNNING =>
    let motor := if mode_manual = false then true else jog_fwd && safe_to_run
    if fault_active then ⟨.FAULT, timer0, false, true, false, false⟩
    else if stop_falling || t.bHMI_Stop then ⟨.STOPPED, timer0, false, true, false, false⟩
    else ⟨.RUNNING, timer0, motor, true, false, false⟩
  | .FAULT =>
    if fault_active = false then ⟨.STOPPED, timer0, false, false, blink_on, true⟩
    else ⟨.FAULT, timer0, false, false, blink_on, true⟩

/-- The attributes and scan-local output the diverter section writes. -/
structure DivOut where
  box_counter : Nat
  reject_next : Bool
  locked : Bool
  out : Bool
deriving DecidableEq

/-- Section 4 (DIVERTER) of scan: runs on the state as already updated by the
state machine, in auto mode and RUNNING only; otherwise diverter_out stays at
its scan-initial false and the bookkeeping is untouched. -/
def diverterStep (stateNow : SystemState) (mode_manual infeed_pe diverter_pe : Bool)
    (s : PLCState) : DivOut :=
  let infeed_rising := infeed_pe && !s.prev_infeed_pe
  let diverter_rising := diverter_pe && !s.prev_diverter_pe
  let diverter_falling := !diverter_pe && s.prev_diverter_pe
  if stateNow = SystemState.RUNNING ∧ mode_manual = false then
    let bc := if infeed_rising then s.box_counter + 1 else s.box_counter
    let rn := if infeed_rising then decide (bc % 3 = 0) else s.reject_next
    let lk := if diverter_rising then true else s.diverter_locked
    let dout := if lk then rn else false
    if diverter_falling && lk then ⟨bc, false, false, false⟩
    else ⟨bc, rn, lk, dout⟩
  else ⟨s.box_counter, s.reject_next, s.diverter_locked, false⟩

/-- The attributes the metrics section writes. -/
structure MetricsOut where
  box_count : Nat
  jam_count : Nat
  cycle_active : Bool
  cycle_timer : ℚ
  cycle_time_sum : ℚ
  last_cycle_time : ℚ
  running_time : ℚ
  fault_time : ℚ
deriving DecidableEq

/-- Section 5 (METRICS) of scan; `stateNow` is the state as updated by the
state machine, `jam_latched_now` the jam latch after this scan's jam
section. -/
def metricsStep (stateNow : SystemState) (infeed_pe outfeed_b_pe outfeed_c_pe : Bool)
    (dt : ℚ) (jam_latched_now : Bool) (s : PLCState) : MetricsOut :=
  let outfeed_b_rising := outfeed_b_pe && !s.prev_outfeed_b
  let outfeed_c_rising := outfeed_c_pe && !s.prev_outfeed_c
  let infeed_rising_m := infeed_pe && !s.prev_infeed_metrics
  let jam_rising := jam_latched_now && !s.prev_jam_event
  let ca1 := if infeed_rising_m && !s.cycle_active then true else s.cycle_active
  let ct1 := if infeed_rising_m && !s.cycle_active then 0 else s.cycle_timer
  let ct2 := if ca1 then ct1 + dt else ct1
  let complete := ca1 && (outfeed_b_rising || outfeed_c_rising)
  let bc := if complete then s.metrics_box_count + 1 else s.metrics_box_count
  let lct := if complete then ct2 else s.last_cycle_time
  let cts := if complete then s.cycle_time_sum + ct2 else s.cycle_time_sum
  let ca2 := if complete then false else ca1
  let ct3 := if complete then 0 else ct2
  let jc := if jam_rising then s.metrics_jam_count + 1 else s.metrics_jam_count
  let rt := if stateNow = SystemState.RUNNING then s.running_time + dt else s.running_time
  let ft := if stateNow = SystemState.FAULT then s.fault_time + dt else s.fault_time
  ⟨bc, jc, ca2, ct3, cts, lct, rt, ft⟩

/-- Python round() to two/one decimals: round half to even (exact on ℚ). -/
def roundHalfEven (q : ℚ) : ℤ :=
  let n := ⌊q⌋
  if q - n < 1/2 then n
  else if 1/2 < q - n then n + 1
  else if n % 2 = 0 then n else n + 1

def roundTo (d : ℕ) (q : ℚ) : ℚ := (roundHalfEven (q * 10 ^ d) : ℚ) / 10 ^ d

/-- The blink section's result for this scan. -/
def scanBlink (dt : ℚ) (s : PLCState) : BlinkOut := blinkStep dt s.blink_timer s.blink_on

/-- The safety section's result for this scan. -/
def scanSafety (t : Tags) (s : PLCState) : SafetyOut :=
  safetyStep t.bEStop (clearRising t s) s.jam_latched s.estop_latched s.fault_code

/-- `safe_to_run`, computed in the safety section (line 154), before jam
detection: it sees the e-stop latch after this scan's safety update but the
jam latch of the previous scan. -/
def safeToRun (t : Tags) (s : PLCState) : Bool :=
  t.bEStop && !(scanSafety t s).latched && !s.jam_latched && t.bStopPB

/-- The jam bookkeeping as the jam section (detection then clear) leaves it. -/
def scanJam (t : Tags) (dt : ℚ) (s : PLCState) : JamSt :=
  jamClear t (clearRising t s) (scanSafety t s).latched
    (jamDetect t dt s.state
      ⟨s.jt_infeed, s.jt_diverter, s.jt_outfeed_b, s.jt_outfeed_c,
       s.jam_latched, s.jam_location, (scanSafety t s).fault_code⟩)

/-- The state-machine section of a scan, with its scan-local outputs. -/
def scanSM (t : Tags) (dt : ℚ) (s : PLCState) : SMOut :=
  stateMachine t dt ((scanSafety t s).latched || (scanJam t dt s).latched)
    (safeToRun t s) (startRising t s && safeToRun t s) (stopFalling t s)
    t.bModeSelector t.bHMI_JogFwd s.state s.start_timer s.start_delay (scanBlink dt s).bOn

/-- The diverter section of a scan. -/
def scanDiv (t : Tags) (dt : ℚ) (s : PLCState) : DivOut :=
  diverterStep (scanSM t dt s).state t.bModeSelector t.bInfeedPE t.bDiverterPE s

/-- The metrics section of a scan. -/
def scanMetrics (t : Tags) (dt : ℚ) (s : PLCState) : MetricsOut :=
  metricsStep (scanSM t dt s).state t.bInfeedPE t.bOutfeedBPE t.bOutfeedCPE dt
    (scanJam t dt s).latched s

/-- One full PLC scan (LocalPLCLogic.scan): returns the new PLC state (with
previous-scan signals saved) and the tag table with outputs written and the
one-shot HMI commands bHMI_Start / bHMI_Stop / bHMI_FaultClear consumed. -/
def scan (t : Tags) (dt : ℚ) (s : PLCState) : PLCState × Tags :=
  let bl := scanBlink dt s
  let sf := scanSafety t s
  let jm := scanJam t dt s
  let sm := scanSM t dt s
  let dv := scanDiv t dt s
  let mt := scanMetrics t dt s
  let avg_cycle := if 0 < mt.box_count then mt.cycle_time_sum / (mt.box_count : ℚ) else 0
  let throughput := if 1 < mt.running_time then
    (mt.box_count : ℚ) / (mt.running_time / 3600) else 0
  let motor_output := sm.motor_cmd && t.bEStop && !sf.latched && t.bStopPB
  let t1 : Tags := { t with
    bConveyorMotor := motor_output
    bDiverterActuator := dv.out
    bAlarmBuzzer := sm.alarm
    bStatusGreen := sm.green
    bStatusRed := sm.red
    iHMI_State := sm.state.toNat
    sHMI_FaultMsg := faultMessage jm.fault_code
    rHMI_BoxCount := mt.box_count
    rHMI_AvgCycleTime := roundTo 2 avg_cycle
    rHMI_JamCount := mt.jam_count
    rHMI_Throughput := roundTo 1 throughput
    bHMI_Start := false
    bHMI_Stop := false
    bHMI_FaultClear := false }
  let s1 : PLCState := {
    state := sm.state
    fault_code := jm.fault_code
    estop_latched := sf.latched
    prev_start := startPb t
    prev_stop := t.bStopPB
    prev_estop := t.bEStop
    prev_fault_clear := t.bHMI_FaultClear
    start_timer := sm.start_timer
    start_delay := s.start_delay
    jt_infeed := jm.jt_infeed
    jt_diverter := jm.jt_diverter
    jt_outfeed_b := jm.jt_outfeed_b
    jt_outfeed_c := jm.jt_outfeed_c
    jam_latched := jm.latched
    jam_location := jm.location
    box_counter := dv.box_counter
    reject_next := dv.reject_next
    prev_infeed_pe := t.bInfeedPE
    prev_diverter_pe := t.bDiverterPE
    diverter_locked := dv.locked
    metrics_box_count := mt.box_count
    metrics_jam_count := mt.jam_count
    cycle_active := mt.cycle_active
    cycle_timer := mt.cycle_timer
    cycle_time_sum := mt.cycle_time_sum
    last_cycle_time := mt.last_cycle_time
    running_time := mt.running_time
    fault_time := mt.fault_time
    prev_outfeed_b := t.bOutfeedBPE
    prev_outfeed_c := t.bOutfeedCPE
    prev_jam_event := jm.latched
    prev_infeed_metrics := t.bInfeedPE
    blink_timer := bl.timer
    blink_on := bl.bOn }
  (s1, t1)

/-! ## Physics engine (process_sim.py) -/

/-- Box lifecycle states (process_sim.py, class BoxState). -/
inductive BoxState where
  | QUEUED
  | ON_CONVEYOR
  | AT_INFEED
  | AT_DIVERTER
  | AT_OUTFEED_B
  | AT_OUTFEED_C
  | COMPLETED
  | JAMMED
deriving DecidableEq

/-- A box on the conveyor (dataclass Box); note the dataclass has no
jam-location field. -/
structure Box where
  box_id : Nat
  position_mm : ℚ := 0
  state : BoxState := .QUEUED
  arrival_time : ℚ := 0
  exit_time : ℚ := 0
  is_reject : Bool := false
  is_jammed : Bool := false
  routed : Bool := false
deriving DecidableEq

/-- Conveyor physical dimensions (dataclass ConveyorConfig). -/
structure ConveyorConfig where
  total_length_mm : ℚ := 3000
  infeed_pe_pos : ℚ := 0
  diverter_pe_pos : ℚ := 1500
  outfeed_b_pos : ℚ := 2500
  outfeed_c_pos : ℚ := 2500
  belt_speed_mms : ℚ := 500
  box_length_mm : ℚ := 200
deriving DecidableEq

/-- The jam_pos lookup in _move_boxes. -/
def jamPos (g : ConveyorConfig) : Loc → ℚ
  | .infeed => g.infeed_pe_pos
  | .diverter => g.diverter_pe_pos
  | .outfeed_b => g.outfeed_b_pos
  | .outfeed_c => g.outfeed_c_pos

/-- `jams` configuration section; `jam_location = none` models the string
"random" (a fresh uniform choice at each use), `some l` a fixed site name. -/
structure JamConfig where
  enabled : Bool := true
  probability_per_box : ℚ := 3/100
  jam_location : Option Loc := none
deriving DecidableEq

/-- `boxes` configuration section. -/
structure BoxesConfig where
  arrival_rate_per_hour : ℚ := 72
  arrival_jitter_pct : ℚ := 20
deriving DecidableEq

/-- The configuration the core uses (conveyor geometry is the built
ConveyorConfig; logging keeps only the metrics rate limit). -/
structure SimConfig where
  conveyor : ConveyorConfig := {}
  boxes : BoxesConfig := {}
  jams : JamConfig := {}
  log_interval_sec : ℚ := 1
deriving DecidableEq

/-- Event kinds written to the events CSV. -/
inductive EventType where
  | BOX_ARRIVAL
  | BOX_EXIT_B
  | BOX_EXIT_C
  | JAM
  | JAM_CLEARED
  | SUMMARY
deriving DecidableEq

/-- One events-CSV row; the description column is a pure function of these
fields and of the box record, so it is not re-modelled. -/
structure Event where
  sim_time : ℚ
  etype : EventType
  box_id : Nat
deriving DecidableEq

/-- `random.choice(["infeed", "diverter", "outfeed_b", "outfeed_c"])`, driven
by one uniform draw in [0,1). -/
def chooseLoc (r : ℚ) : Loc :=
  if r < 1/4 then .infeed else if r < 1/2 then .diverter
  else if r < 3/4 then .outfeed_b else .outfeed_c

/-- `_get_jam_location`: the configured fixed site, or a fresh uniform choice
(consuming one draw) when the config says "random". -/
def getJamLocation (jc : JamConfig) (rand : ℕ → ℚ) (i : ℕ) : Loc × ℕ :=
  match jc.jam_location with
  | some l => (l, i)
  | none => (chooseLoc (rand i), i + 1)

/-- `_should_inject_jam`: Bernoulli(probability_per_box) when jams are
enabled (consuming one draw), else false with no draw. -/
def shouldInjectJam (jc : JamConfig) (rand : ℕ → ℚ) (i : ℕ) : Bool × ℕ :=
  if jc.enabled then (decide (rand i < jc.probability_per_box), i + 1) else (false, i)

/-- `_schedule_next_arrival`: none models float("inf") (rate ≤ 0); otherwise
the nominal interval perturbed by random.uniform(-jitter, jitter) and clamped
to ≥ 1 s. -/
def scheduleNextArrival (bc : BoxesConfig) (rand : ℕ → ℚ) (i : ℕ) (sim_time : ℚ) :
    Option ℚ × ℕ :=
  if bc.arrival_rate_per_hour ≤ 0 then (none, i)
  else
    let interval := 3600 / bc.arrival_rate_per_hour
    let jitter := interval * (bc.arrival_jitter_pct / 100)
    let actual := interval + (-jitter + 2 * jitter * rand i)
    (some (sim_time + max actual 1), i + 1)

/-- Result of processing one box in _move_boxes: the updated box, whether it
stays on the active list, the events it emitted, and the RNG cursor. -/
structure MoveResult where
  box : Box
  stillActive : Bool
  events : List Event
  rng : ℕ
deriving DecidableEq

/-- The movement/lifecycle part of the _move_boxes loop body (after the jam
check): advance by `distance`, then the position-based elif chain. -/
def moveBody (g : ConveyorConfig) (distance : ℚ) (diverter_extended : Bool)
    (sim_time : ℚ) (i : ℕ) (b : Box) : MoveResult :=
  let b1 := { b with position_mm := b.position_mm + distance }
  if g.outfeed_b_pos ≤ b1.position_mm ∧ b1.is_reject = false then
    let b2 := { b1 with state := BoxState.AT_OUTFEED_B }
    if g.outfeed_b_pos + g.box_length_mm ≤ b2.position_mm then
      ⟨{ b2 with state := BoxState.COMPLETED, exit_time := sim_time }, false,
        [⟨sim_time, EventType.BOX_EXIT_B, b2.box_id⟩], i⟩
    else ⟨b2, true, [], i⟩
  else if g.outfeed_c_pos ≤ b1.position_mm ∧ b1.is_reject = true then
    let b2 := { b1 with state := BoxState.AT_OUTFEED_C }
    if g.outfeed_c_pos + g.box_length_mm ≤ b2.position_mm then
      ⟨{ b2 with state := BoxState.COMPLETED, exit_time := sim_time }, false,
        [⟨sim_time, EventType.BOX_EXIT_C, b2.box_id⟩], i⟩
    else ⟨b2, true, [], i⟩
  else if g.diverter_pe_pos ≤ b1.position_mm then
    let b2 := { b1 with state := BoxState.AT_DIVERTER }
    if b2.routed = false then
      ⟨{ b2 with is_reject := diverter_extended, routed := true }, true, [], i⟩
    else ⟨b2, true, [], i⟩
  else if g.infeed_pe_pos ≤ b1.position_mm then
    ⟨{ b1 with state := BoxState.AT_INFEED }, true, [], i⟩
  else ⟨b1, true, [], i⟩

/-- One iteration of the _move_boxes loop: JAMMED boxes do not move; a box
with is_jammed draws a jam location (each sub-step anew) and becomes JAMMED
if its current position has reached that site's position (checked before
moving); otherwise it moves. -/
def moveOneBox (g : ConveyorConfig) (jc : JamConfig) (rand : ℕ → ℚ)
    (distance : ℚ) (diverter_extended : Bool) (sim_time : ℚ) (i : ℕ) (b : Box) :
    MoveResult :=
  if b.state = BoxState.JAMMED then ⟨b, true, [], i⟩
  else if b.is_jammed then
    let loc := (getJamLocation jc rand i).1
    let i2 := (getJamLocation jc rand i).2
    if jamPos g loc ≤ b.position_mm then
      ⟨{ b with state := BoxState.JAMMED }, true, [⟨sim_time, EventType.JAM, b.box_id⟩], i2⟩
    else moveBody g distance diverter_extended sim_time i2 b
  else moveBody g distance diverter_extended sim_time i b

/-- Accumulated result of _move_boxes over the active list. -/
structure MoveAll where
  active : List Box
  completed : List Box
  events : List Event
  rng : ℕ
deriving DecidableEq

def moveBoxesAux (g : ConveyorConfig) (jc : JamConfig) (rand : ℕ → ℚ)
    (distance : ℚ) (diverter_extended : Bool) (sim_time : ℚ) :
    ℕ → List Box → MoveAll
  | i, [] => ⟨[], [], [], i⟩
  | i, b :: rest =>
    let r := moveOneBox g jc rand distance diverter_extended sim_time i b
    let tail := moveBoxesAux g jc rand distance diverter_extended sim_time r.rng rest
    { active := (if r.stillActive then [r.box] else []) ++ tail.active
      completed := (if r.stillActive then [] else [r.box]) ++ tail.completed
      events := r.events ++ tail.events
      rng := tail.rng }

/-- `_move_boxes(dt, speed_mms, diverter_extended)`: distance = speed × dt,
then the per-box loop in list order (removed boxes leave the survivors'
relative order unchanged). -/
def moveBoxes (g : ConveyorConfig) (jc : JamConfig) (rand : ℕ → ℚ)
    (dt speed_mms : ℚ) (diverter_extended : Bool) (sim_time : ℚ) (i : ℕ)
    (active : List Box) : MoveAll :=
  moveBoxesAux g jc rand (speed_mms * dt) diverter_extended sim_time i active

/-- `_update_photoeyes`: range-based detection; a PE is blocked iff some
active box's occupancy interval [position − len/2, position + len/2] contains
the PE position; outfeed B/C only count accept/reject boxes respectively. -/
def updatePhotoeyes (g : ConveyorConfig) (active : List Box) (t : Tags) : Tags :=
  let occ := fun (b : Box) (pos : ℚ) =>
    decide (b.position_mm - g.box_length_mm / 2 ≤ pos ∧
            pos ≤ b.position_mm + g.box_length_mm / 2)
  { t with
    bInfeedPE := active.any fun b => occ b g.infeed_pe_pos
    bDiverterPE := active.any fun b => occ b g.diverter_pe_pos
    bOutfeedBPE := active.any fun b => !b.is_reject && occ b g.outfeed_b_pos
    bOutfeedCPE := active.any fun b => b.is_reject && occ b g.outfeed_c_pos }

/-- Full simulator state (ProcessSimulator attributes + the tag table + the
event rows the sink received). -/
structure SimState where
  boxes : List Box := []
  active_boxes : List Box := []
  completed_boxes : List Box := []
  sim_time : ℚ := 0
  next_box_id : Nat := 1
  next_arrival_time : Option ℚ := some 0
  plc : PLCState := {}
  tags : Tags := {}
  events : List Event := []
  jam_recovery_timer : ℚ := 0
  recovering : Bool := false
  last_log_time : ℚ := 0
  metrics_rows : List (ℚ × Nat × Nat × ℚ × Nat × ℚ × String) := []
  rng : ℕ := 0

/-- `_generate_box`: pre-rolls is_jammed (one Bernoulli draw when jams are
enabled), creates the box at position 0 in state AT_INFEED, appends it and
emits BOX_ARRIVAL.  No jam location is chosen here. -/
def generateBox (cfg : SimConfig) (rand : ℕ → ℚ) (st : SimState) : SimState :=
  let inj := shouldInjectJam cfg.jams rand st.rng
  let b : Box := { box_id := st.next_box_id, position_mm := 0, state := .AT_INFEED,
                   arrival_time := st.sim_time, is_jammed := inj.1 }
  { st with next_box_id := st.next_box_id + 1
            active_boxes := st.active_boxes ++ [b]
            boxes := st.boxes ++ [b]
            events := st.events ++ [⟨st.sim_time, EventType.BOX_ARRIVAL, b.box_id⟩]
            rng := inj.2 }

/-- `_auto_recover_jams`: called once per physics sub-step after the scan.
On seeing iHMI_State = 3 it arms the recovery; the recovery timer then
advances by a hard-coded 0.05 per call (the Python comment says `# ~dt`),
irrespective of the sub-step length.  When it reaches 3.0: remove all JAMMED
boxes (emitting JAM_CLEARED each), recompute photoeyes, run a scan, set
bHMI_FaultClear, run another scan, and if the state is then STOPPED set
bHMI_Start. -/
def autoRecoverJams (cfg : SimConfig) (st : SimState) : SimState :=
  let st1 := if st.tags.iHMI_State = 3 ∧ st.recovering = false then
               { st with recovering := true, jam_recovery_timer := 0 } else st
  if st1.recovering then
    let st2 := { st1 with jam_recovery_timer := st1.jam_recovery_timer + 1/20 }
    if 3 ≤ st2.jam_recovery_timer then
      let jammed := st2.active_boxes.filter fun b => decide (b.state = BoxState.JAMMED)
      let st3 := { st2 with
        active_boxes := st2.active_boxes.filter fun b => !decide (b.state = BoxState.JAMMED)
        events := st2.events ++ jammed.map fun (b : Box) =>
          ({ sim_time := st2.sim_time, etype := EventType.JAM_CLEARED,
             box_id := b.box_id : Event }) }
      let st4 := { st3 with tags := updatePhotoeyes cfg.conveyor st3.active_boxes st3.tags }
      let fst5 := scan st4.tags (1/20) st4.plc
      let tPulse := { fst5.2 with bHMI_FaultClear := true }
      let fst6 := scan tPulse (1/20) fst5.1
      let st7 : SimState := { st4 with
        plc := fst6.1
        tags := fst6.2
        recovering := false
        jam_recovery_timer := 0 }
      if st7.tags.iHMI_State = 0 then
        { st7 with tags := { st7.tags with bHMI_Start := true } }
      else st7
    else st2
  else st1

/-- One physics sub-step of ProcessSimulator.update: advance sim_time, update
photoeyes, run the PLC scan and the auto recovery, read the actuator tags
(Python's `or 1.0` turns a zero speed setpoint into 1.0), generate arrivals
while RUNNING, and move boxes if the motor is on. -/
def simSlice (cfg : SimConfig) (rand : ℕ → ℚ) (step : ℚ) (st : SimState) : SimState :=
  let st1 := { st with sim_time := st.sim_time + step }
  let st2 := { st1 with tags := updatePhotoeyes cfg.conveyor st1.active_boxes st1.tags }
  let pt := scan st2.tags step st2.plc
  let st3 := autoRecoverJams cfg { st2 with plc := pt.1, tags := pt.2 }
  let motor_on := st3.tags.bConveyorMotor
  let diverter_extended := st3.tags.bDiverterActuator
  let speed_setpoint := if st3.tags.rConveyorSpeed = 0 then 1 else st3.tags.rConveyorSpeed
  let st4 :=
    match st3.next_arrival_time with
    | none => st3
    | some na =>
      if na ≤ st3.sim_time then
        let stg := if st3.tags.iHMI_State = 2 then generateBox cfg rand st3 else st3
        let sched := scheduleNextArrival cfg.boxes rand stg.rng stg.sim_time
        { stg with next_arrival_time := sched.1, rng := sched.2 }
      else st3
  if motor_on then
    let speed := cfg.conveyor.belt_speed_mms * speed_setpoint
    let mv := moveBoxes cfg.conveyor cfg.jams rand step speed diverter_extended
                st4.sim_time st4.rng st4.active_boxes
    { st4 with active_boxes := mv.active
               completed_boxes := st4.completed_boxes ++ mv.completed
               events := st4.events ++ mv.events
               rng := mv.rng }
  else st4

/-- The sub-step slicing of update: while remaining > 0, take
min(remaining, MAX_PHYSICS_DT = 0.05).  Written with a fuel bound that covers
the loop's iteration count (each iteration but the last consumes exactly
0.05, so ⌈20·dt⌉ + 1 iterations always suffice). -/
def sliceList : ℕ → ℚ → List ℚ
  | 0, _ => []
  | fuel + 1, remaining =>
    if 0 < remaining then
      min remaining (1/20) :: sliceList fuel (remaining - min remaining (1/20))
    else []

/-- DataLogger.log_metrics: one snapshot row per outer tick, rate-limited. -/
def logMetrics (cfg : SimConfig) (st : SimState) : SimState :=
  if st.sim_time - st.last_log_time < cfg.log_interval_sec then st
  else
    { st with last_log_time := st.sim_time
              metrics_rows := st.metrics_rows ++
                [(st.sim_time, st.tags.iHMI_State, st.tags.rHMI_BoxCount,
                  st.tags.rHMI_AvgCycleTime, st.tags.rHMI_JamCount,
                  st.tags.rHMI_Throughput, st.tags.sHMI_FaultMsg)] }

/-- ProcessSimulator.update(dt): run the sub-step loop then log metrics. -/
def updateSim (cfg : SimConfig) (rand : ℕ → ℚ) (dt : ℚ) (st : SimState) : SimState :=
  let slices := sliceList (1 + (dt * 20).ceil.toNat) dt
  logMetrics cfg (slices.foldl (fun s step => simSlice cfg rand step s) st)

/-- The simulator constructor's schedule of the first arrival (the rest of
__init__ is the record defaults). -/
def initSim (cfg : SimConfig) (rand : ℕ → ℚ) : SimState :=
  let sched := scheduleNextArrival cfg.boxes rand 0 0
  { next_arrival_time := sched.1, rng := sched.2 }

/-- A whole driven run: apply update for each outer dt in the schedule. -/
def runSim (cfg : SimConfig) (rand : ℕ → ℚ) (dts : List ℚ) (st : SimState) : SimState :=
  dts.foldl (fun s dt => updateSim cfg rand dt s) st

/-! ## C1: safety-gated motor output -/

/-- C1: in every scan the value written to bConveyorMotor is exactly
`motor_cmd ∧ estop ∧ ¬estop_latched ∧ stop_pb`, where motor_cmd is the state
machine's command for this scan, estop and stop_pb are the scan's input
snapshot, and estop_latched is the latch as this scan leaves it; in
particular the motor is off whenever bEStop is false, bStopPB is false, or
the e-stop latch is set. -/
theorem c1_motor_gating (t : Tags) (dt : ℚ) (s : PLCState) :
    (scan t dt s).2.bConveyorMotor =
      ((scanSM t dt s).motor_cmd && t.bEStop && !(scan t dt s).1.estop_latched
        && t.bStopPB) ∧
    ((t.bEStop = false ∨ t.bStopPB = false ∨ (scan t dt s).1.estop_latched = true) →
      (scan t dt s).2.bConveyorMotor = false) := by
  have h2 : (scan t dt s).2.bConveyorMotor =
      ((scanSM t dt s).motor_cmd && t.bEStop && !(scanSafety t s).latched
        && t.bStopPB) := rfl
  refine ⟨h2, ?_⟩
  rintro (h | h | h) <;> rw [h2]
  · rw [h]; simp
  · rw [h]; simp
  · have hl : (scanSafety t s).latched = true := h
    rw [hl]; simp

/-- C1 witness: with bEStop = false the motor tag is written false. -/
theorem c1_motor_gating_witness :
    (scan { bEStop := false } (1/50) ({} : PLCState)).2.bConveyorMotor = false :=
  (c1_motor_gating { bEStop := false } (1/50) ({} : PLCState)).2 (Or.inl rfl)

/-! ## C6: one-shot HMI command consumption -/

/-- C6 counterexample: with all four HMI command tags set before the scan,
bHMI_JogFwd is still true after the scan (the scan clears only bHMI_Start,
bHMI_Stop and bHMI_FaultClear), refuting the claim that all four one-shot
tags are false after every scan. -/
theorem c6_counterexample :
    ({ bHMI_Start := true, bHMI_Stop := true, bHMI_FaultClear := true,
       bHMI_JogFwd := true : Tags }).bHMI_JogFwd = true ∧
    (scan { bHMI_Start := true, bHMI_Stop := true, bHMI_FaultClear := true,
            bHMI_JogFwd := true } (1/50) ({} : PLCState)).2.bHMI_JogFwd = true :=
  ⟨rfl, rfl⟩

/-- C6 amended: after every scan the three consumed one-shot tags bHMI_Start,
bHMI_Stop and bHMI_FaultClear are false, while bHMI_JogFwd is left exactly as
it was before the scan (it is read as a level for jog, not consumed). -/
theorem c6_amended (t : Tags) (dt : ℚ) (s : PLCState) :
    (scan t dt s).2.bHMI_Start = false ∧
    (scan t dt s).2.bHMI_Stop = false ∧
    (scan t dt s).2.bHMI_FaultClear = false ∧
    (scan t dt s).2.bHMI_JogFwd = t.bHMI_JogFwd :=
  ⟨rfl, rfl, rfl, rfl⟩

/-! ## C9: determinism -/

/-- C9: two runs of the embedded simulation with the same draw stream (the
model of the seeded RNG), the same configuration and the same schedule of
outer dt values produce identical event streams and identical final tag
tables. -/
theorem c9_determinism (cfg1 cfg2 : SimConfig) (rand1 rand2 : ℕ → ℚ)
    (dts1 dts2 : List ℚ) (hc : cfg1 = cfg2) (hr : rand1 = rand2)
    (hd : dts1 = dts2) :
    (runSim cfg1 rand1 dts1 (initSim cfg1 rand1)).events =
      (runSim cfg2 rand2 dts2 (initSim cfg2 rand2)).events ∧
    (runSim cfg1 rand1 dts1 (initSim cfg1 rand1)).tags =
      (runSim cfg2 rand2 dts2 (initSim cfg2 rand2)).tags := by
  subst hc; subst hr; subst hd; exact ⟨rfl, rfl⟩

/-- C9 witness at a concrete seed, configuration and dt schedule. -/
theorem c9_determinism_witness :
    (runSim {} (fun _ => 0) [1/20] (initSim {} (fun _ => 0))).events =
      (runSim {} (fun _ => 0) [1/20] (initSim {} (fun _ => 0))).events ∧
    (runSim {} (fun _ => 0) [1/20] (initSim {} (fun _ => 0))).tags =
      (runSim {} (fun _ => 0) [1/20] (initSim {} (fun _ => 0))).tags :=
  c9_determinism {} {} (fun _ => 0) (fun _ => 0) [1/20] [1/20] rfl rfl rfl

/-! ## C10: start signal disjunction and its single edge detector -/

/-- C10: the start signal fed to the state machine is bStartPB ∨ bHMI_Start,
its rising edge is detected against the single stored previous value of that
disjunction (saved back each scan), so whenever the previous disjunction was
true no rising edge fires, and a bHMI_Start pulse in the scan right after
bStartPB was true does not leave STOPPED. -/
theorem c10_start_edge (t : Tags) (dt : ℚ) (s : PLCState) :
    startPb t = (t.bStartPB || t.bHMI_Start) ∧
    startRising t s = (startPb t && !s.prev_start) ∧
    (scan t dt s).1.prev_start = startPb t ∧
    (s.prev_start = true → startRising t s = false) ∧
    (s.state = SystemState.STOPPED → s.prev_start = true →
      (scan t dt s).1.state = SystemState.STOPPED) := by
  refine ⟨rfl, rfl, rfl, ?_, ?_⟩
  · intro h; simp [startRising, h]
  · intro hst hprev
    have hr : startRising t s = false := by simp [startRising, hprev]
    show (scanSM t dt s).state = SystemState.STOPPED
    unfold scanSM stateMachine
    rw [hst, hr]
    simp

/-- C10 witness: a bHMI_Start pulse arriving while the stored previous start
signal is true does not start the system. -/
theorem c10_start_edge_witness :
    (scan { bHMI_Start := true } (1/50) { prev_start := true }).1.state =
      SystemState.STOPPED :=
  (c10_start_edge { bHMI_Start := true } (1/50) { prev_start := true }).2.2.2.2 rfl rfl

/-! ## C3: e-stop raises FAULT; FAULT is only left via a fault-clear edge -/

/-- Run a sequence of scans, each with its own input tags and dt. -/
def scanSeq (s : PLCState) : List (Tags × ℚ) → PLCState
  | [] => s
  | (t, dt) :: rest => scanSeq (scan t dt s).1 rest

/-- No fault-clear rising edge fires along the scans of `l` when the stored
previous fault-clear value starts at `prev` (`clear_rising = fault_clear ∧
¬prev`, and each scan saves fault_clear as the new prev). -/
def noClearEdge (prev : Bool) : List (Tags × ℚ) → Prop
  | [] => True
  | (t, _) :: rest => (t.bHMI_FaultClear && !prev) = false ∧
      noClearEdge t.bHMI_FaultClear rest

/-- With the e-stop latch set, a scan without a fault-clear rising edge keeps
the latch and, from FAULT, stays in FAULT. -/
lemma scan_fault_absorbing (t : Tags) (dt : ℚ) (s : PLCState)
    (hs : s.state = SystemState.FAULT) (hl : s.estop_latched = true)
    (hcr : (t.bHMI_FaultClear && !s.prev_fault_clear) = false) :
    (scan t dt s).1.state = SystemState.FAULT ∧
    (scan t dt s).1.estop_latched = true ∧
    (scan t dt s).1.prev_fault_clear = t.bHMI_FaultClear := by
  have hcr2 : clearRising t s = false := hcr
  have hlat : (scanSafety t s).latched = true := by
    unfold scanSafety safetyStep
    rw [hcr2, hl]
    split_ifs <;> simp
  refine ⟨?_, hlat, rfl⟩
  show (scanSM t dt s).state = SystemState.FAULT
  unfold scanSM stateMachine
  rw [hs, hlat]
  simp

/-- Latched-FAULT absorption over any scan sequence without a fault-clear
rising edge. -/
lemma scanSeq_fault_absorbing (l : List (Tags × ℚ)) (s : PLCState)
    (hs : s.state = SystemState.FAULT) (hl : s.estop_latched = true)
    (hnc : noClearEdge s.prev_fault_clear l) :
    (scanSeq s l).state = SystemState.FAULT := by
  induction l generalizing s with
  | nil => exact hs
  | cons td rest ih =>
    obtain ⟨t, dt⟩ := td
    obtain ⟨h1, h2⟩ := hnc
    have step := scan_fault_absorbing t dt s hs hl h1
    exact ih (scan t dt s).1 step.1 step.2.1 (by rw [step.2.2]; exact h2)

/-- C3 counterexample: from the initial (STOPPED) control state, a scan with
bEStop = false ends with iHMI_State = 0, not 3: the STOPPED branch of the
state machine has no transition to FAULT, so the claim "for every
control-engine state ... the scan ends with iHMI_State = 3" is false. -/
theorem c3_counterexample :
    ({ bEStop := false : Tags }).bEStop = false ∧
    ({} : PLCState).state = SystemState.STOPPED ∧
    (scan { bEStop := false } (1/50) ({} : PLCState)).2.iHMI_State = 0 ∧
    (scan { bEStop := false } (1/50) ({} : PLCState)).2.iHMI_State ≠ 3 := by
  refine ⟨rfl, rfl, ?_, ?_⟩ <;> with_unfolding_all decide

/-- C3 amended: a scan with bEStop = false ends in FAULT from STARTING,
RUNNING or FAULT (and sets the e-stop latch), but from STOPPED the state
stays STOPPED (only the latch and fault code are set); and from FAULT with
the e-stop latch set, no scan sequence without a bHMI_FaultClear rising edge
ever leaves FAULT, regardless of bEStop returning to true. -/
theorem c3_amended (t : Tags) (dt : ℚ) (s : PLCState) (l : List (Tags × ℚ)) :
    (t.bEStop = false →
      ((s.state = SystemState.STARTING ∨ s.state = SystemState.RUNNING ∨
        s.state = SystemState.FAULT) → (scan t dt s).2.iHMI_State = 3) ∧
      (s.state = SystemState.STOPPED → (scan t dt s).2.iHMI_State = 0) ∧
      (scan t dt s).1.estop_latched = true) ∧
    (s.state = SystemState.FAULT → s.estop_latched = true →
      noClearEdge s.prev_fault_clear l →
      (scanSeq s l).state = SystemState.FAULT) := by
  refine ⟨?_, scanSeq_fault_absorbing l s⟩
  intro he
  have hlat : (scanSafety t s).latched = true := by
    unfold scanSafety safetyStep
    rw [he]
    simp
  have hstate : (scan t dt s).2.iHMI_State = (scanSM t dt s).state.toNat := rfl
  refine ⟨?_, ?_, hlat⟩
  · rintro (h | h | h) <;> rw [hstate] <;> unfold scanSM stateMachine <;>
      rw [h, hlat] <;> simp [SystemState.toNat]
  · intro h
    rw [hstate]
    unfold scanSM stateMachine
    rw [h]
    have : safeToRun t s = false := by simp [safeToRun, he]
    simp [this, SystemState.toNat]

/-- C3 witness: from FAULT with the latch set, a scan with bEStop healthy but
no fault-clear edge stays in FAULT. -/
theorem c3_amended_witness :
    (scanSeq { state := SystemState.FAULT, estop_latched := true,
               fault_code := FaultCode.ESTOP } [({}, 1/50)]).state =
      SystemState.FAULT :=
  (c3_amended {} (1/50)
      { state := SystemState.FAULT, estop_latched := true,
        fault_code := FaultCode.ESTOP } [({}, 1/50)]).2 rfl rfl ⟨rfl, trivial⟩

/-! ## C5: diverter latch -/

/-- C5 counterexample: in a RUNNING auto-mode scan with a diverter-PE falling
edge but diverter_locked not set, reject_next is NOT cleared (the code clears
it only when the falling edge happens while locked), refuting the claim that
a diverter-PE falling edge clears reject_next. -/
theorem c5_counterexample :
    (scanSM {} (1/50)
        { state := SystemState.RUNNING, reject_next := true,
          prev_diverter_pe := true }).state = SystemState.RUNNING ∧
    ({} : Tags).bModeSelector = false ∧
    (!({} : Tags).bDiverterPE &&
      ({ state := SystemState.RUNNING, reject_next := true,
         prev_diverter_pe := true : PLCState }).prev_diverter_pe) = true ∧
    (scan {} (1/50)
        { state := SystemState.RUNNING, reject_next := true,
          prev_diverter_pe := true }).1.reject_next = true := by
  refine ⟨?_, rfl, ?_, ?_⟩ <;> with_unfolding_all decide

/-- C5 amended: in every scan whose state-machine output state is RUNNING
with auto mode, the diverter section behaves as the claim says except that a
diverter-PE falling edge clears the latch, reject_next and the actuator only
when diverter_locked is set (a falling edge without the latch leaves
reject_next unchanged, the actuator false); and in any scan outside RUNNING
or in manual mode the actuator is written false and the bookkeeping is
unchanged. -/
theorem c5_amended (t : Tags) (dt : ℚ) (s : PLCState) :
    ((scanSM t dt s).state = SystemState.RUNNING → t.bModeSelector = false →
      (scan t dt s).1.box_counter =
        (if t.bInfeedPE && !s.prev_infeed_pe then s.box_counter + 1
         else s.box_counter) ∧
      (scan t dt s).1.reject_next =
        (if (!t.bDiverterPE && s.prev_diverter_pe) &&
            (if t.bDiverterPE && !s.prev_diverter_pe then true
             else s.diverter_locked) then false
         else if t.bInfeedPE && !s.prev_infeed_pe then
           decide ((s.box_counter + 1) % 3 = 0)
         else s.reject_next) ∧
      (scan t dt s).1.diverter_locked =
        (if (!t.bDiverterPE && s.prev_diverter_pe) &&
            (if t.bDiverterPE && !s.prev_diverter_pe then true
             else s.diverter_locked) then false
         else if t.bDiverterPE && !s.prev_diverter_pe then true
         else s.diverter_locked) ∧
      (scan t dt s).2.bDiverterActuator =
        (if (!t.bDiverterPE && s.prev_diverter_pe) &&
            (if t.bDiverterPE && !s.prev_diverter_pe then true
             else s.diverter_locked) then false
         else if (if t.bDiverterPE && !s.prev_diverter_pe then true
                  else s.diverter_locked) then
           (if t.bInfeedPE && !s.prev_infeed_pe then
              decide ((s.box_counter + 1) % 3 = 0)
            else s.reject_next)
         else false)) ∧
    (¬((scanSM t dt s).state = SystemState.RUNNING ∧ t.bModeSelector = false) →
      (scan t dt s).2.bDiverterActuator = false ∧
      (scan t dt s).1.box_counter = s.box_counter ∧
      (scan t dt s).1.reject_next = s.reject_next ∧
      (scan t dt s).1.diverter_locked = s.diverter_locked) := by
  have hb : (scan t dt s).1.box_counter = (scanDiv t dt s).box_counter := rfl
  have hr : (scan t dt s).1.reject_next = (scanDiv t dt s).reject_next := rfl
  have hk : (scan t dt s).1.diverter_locked = (scanDiv t dt s).locked := rfl
  have ho : (scan t dt s).2.bDiverterActuator = (scanDiv t dt s).out := rfl
  constructor
  · intro hrun hauto
    rw [hb, hr, hk, ho]
    unfold scanDiv diverterStep
    rw [hrun, hauto]
    simp only [if_pos (by exact ⟨rfl, rfl⟩ : SystemState.RUNNING = SystemState.RUNNING ∧
      (false : Bool) = false)]
    split_ifs <;> simp_all
  · intro hn
    rw [hb, hr, hk, ho]
    unfold scanDiv diverterStep
    rw [if_neg hn]
    exact ⟨rfl, rfl, rfl, rfl⟩

/-- C5 witness: a falling edge while locked clears latch, reject_next and the
actuator. -/
theorem c5_amended_witness :
    (scan {} (1/50)
        { state := SystemState.RUNNING, reject_next := true,
          diverter_locked := true, prev_diverter_pe := true }).1.reject_next =
      false := by
  have h := (c5_amended {} (1/50)
      { state := SystemState.RUNNING, reject_next := true,
        diverter_locked := true, prev_diverter_pe := true }).1
      (by with_unfolding_all decide) rfl
  rw [h.2.1]
  with_unfolding_all decide

/-! ## C2: jam timers, latch, and clear -/

/-- The four jam timers as PLCState attributes. -/
def plcJamTimer (s : PLCState) : Loc → ℚ
  | .infeed => s.jt_infeed
  | .diverter => s.jt_diverter
  | .outfeed_b => s.jt_outfeed_b
  | .outfeed_c => s.jt_outfeed_c

/-- The value the jam-detection loop computes for a site's timer this scan:
accumulate dt while the site's PE is blocked and the (previous-scan) state is
RUNNING, else 0. -/
def jamNewTimer (t : Tags) (dt : ℚ) (s : PLCState) (l : Loc) : ℚ :=
  if peTag t l && decide (s.state = SystemState.RUNNING) then plcJamTimer s l + dt
  else 0

lemma jamStepSite_timer_self (r : Bool) (dt tmo : ℚ) (pe : Loc → Bool) (j : JamSt)
    (l : Loc) :
    (jamStepSite r dt tmo pe j l).timer l =
      (if pe l && r then j.timer l + dt else 0) := by
  cases l <;> simp only [jamStepSite, JamSt.setTimer, JamSt.timer] <;>
    split_ifs <;> rfl

lemma jamStepSite_timer_other (r : Bool) (dt tmo : ℚ) (pe : Loc → Bool) (j : JamSt)
    {l l' : Loc} (h : l' ≠ l) :
    (jamStepSite r dt tmo pe j l).timer l' = j.timer l' := by
  cases l <;> cases l' <;>
    first
    | exact absurd rfl h
    | (simp only [jamStepSite, JamSt.setTimer, JamSt.timer] <;> split_ifs <;> rfl)

lemma jamStepSite_latched (r : Bool) (dt tmo : ℚ) (pe : Loc → Bool) (j : JamSt)
    (l : Loc) :
    (jamStepSite r dt tmo pe j l).latched =
      (j.latched || decide (tmo ≤ (if pe l && r then j.timer l + dt else 0))) := by
  cases l <;> simp only [jamStepSite, JamSt.setTimer, JamSt.timer] <;>
    split_ifs <;> simp_all

lemma jamStepSite_location (r : Bool) (dt tmo : ℚ) (pe : Loc → Bool) (j : JamSt)
    (l : Loc) :
    (jamStepSite r dt tmo pe j l).location =
      (if j.latched = false ∧ tmo ≤ (if pe l && r then j.timer l + dt else 0) then
        some l else j.location) := by
  cases l <;> simp only [jamStepSite, JamSt.setTimer, JamSt.timer] <;>
    split_ifs <;> simp_all

lemma jamStepSite_fault (r : Bool) (dt tmo : ℚ) (pe : Loc → Bool) (j : JamSt)
    (l : Loc) :
    (jamStepSite r dt tmo pe j l).fault_code =
      (if j.latched = false ∧ tmo ≤ (if pe l && r then j.timer l + dt else 0) then
        jamFaultCode l else j.fault_code) := by
  cases l <;> simp only [jamStepSite, JamSt.setTimer, JamSt.timer] <;>
    split_ifs <;> simp_all

/-- Field-level reductions of one loop iteration: a site only writes its
own timer. -/

lemma jamStepSite_infeed_jt_infeed (r : Bool) (dt tmo : ℚ) (pe : Loc → Bool) (j : JamSt) :
    (jamStepSite r dt tmo pe j .infeed).jt_infeed = (if pe .infeed && r then j.jt_infeed + dt else 0) := by
  simp only [jamStepSite, JamSt.setTimer, JamSt.timer]
  split_ifs <;> rfl

lemma jamStepSite_infeed_jt_diverter (r : Bool) (dt tmo : ℚ) (pe : Loc → Bool) (j : JamSt) :
    (jamStepSite r dt tmo pe j .infeed).jt_diverter = j.jt_diverter := by
  simp only [jamStepSite, JamSt.setTimer, JamSt.timer]
  split_ifs <;> rfl

lemma jamStepSite_infeed_jt_outfeed_b (r : Bool) (dt tmo : ℚ) (pe : Loc → Bool) (j : JamSt) :
    (jamStepSite r dt tmo pe j .infeed).jt_outfeed_b = j.jt_outfeed_b := by
  simp only [jamStepSite, JamSt.setTimer, JamSt.timer]
  split_ifs <;> rfl

lemma jamStepSite_infeed_jt_outfeed_c (r : Bool) (dt tmo : ℚ) (pe : Loc → Bool) (j : JamSt) :
    (jamStepSite r dt tmo pe j .infeed).jt_outfeed_c = j.jt_outfeed_c := by
  simp only [jamStepSite, JamSt.setTimer, JamSt.timer]
  split_ifs <;> rfl

lemma jamStepSite_diverter_jt_infeed (r : Bool) (dt tmo : ℚ) (pe : Loc → Bool) (j : JamSt) :
    (jamStepSite r dt tmo pe j .diverter).jt_infeed = j.jt_infeed := by
  simp only [jamStepSite, JamSt.setTimer, JamSt.timer]
  split_ifs <;> rfl

lemma jamStepSite_diverter_jt_diverter (r : Bool) (dt tmo : ℚ) (pe : Loc → Bool) (j : JamSt) :
    (jamStepSite r dt tmo pe j .diverter).jt_diverter = (if pe .diverter && r then j.jt_diverter + dt else 0) := by
  simp only [jamStepSite, JamSt.setTimer, JamSt.timer]
  split_ifs <;> rfl

lemma jamStepSite_diverter_jt_outfeed_b (r : Bool) (dt tmo : ℚ) (pe : Loc → Bool) (j : JamSt) :
    (jamStepSite r dt tmo pe j .diverter).jt_outfeed_b = j.jt_outfeed_b := by
  simp only [jamStepSite, JamSt.setTimer, JamSt.timer]
  split_ifs <;> rfl

lemma jamStepSite_diverter_jt_outfeed_c (r : Bool) (dt tmo : ℚ) (pe : Loc → Bool) (j : JamSt) :
    (jamStepSite r dt tmo pe j .diverter).jt_outfeed_c = j.jt_outfeed_c := by
  simp only [jamStepSite, JamSt.setTimer, JamSt.timer]
  split_ifs <;> rfl

lemma jamStepSite_outfeed_b_jt_infeed (r : Bool) (dt tmo : ℚ) (pe : Loc → Bool) (j : JamSt) :
    (jamStepSite r dt tmo pe j .outfeed_b).jt_infeed = j.jt_infeed := by
  simp only [jamStepSite, JamSt.setTimer, JamSt.timer]
  split_ifs <;> rfl

lemma jamStepSite_outfeed_b_jt_diverter (r : Bool) (dt tmo : ℚ) (pe : Loc → Bool) (j : JamSt) :
    (jamStepSite r dt tmo pe j .outfeed_b).jt_diverter = j.jt_diverter := by
  simp only [jamStepSite, JamSt.setTimer, JamSt.timer]
  split_ifs <;> rfl

lemma jamStepSite_outfeed_b_jt_outfeed_b (r : Bool) (dt tmo : ℚ) (pe : Loc → Bool) (j : JamSt) :
    (jamStepSite r dt tmo pe j .outfeed_b).jt_outfeed_b = (if pe .outfeed_b && r then j.jt_outfeed_b + dt else 0) := by
  simp only [jamStepSite, JamSt.setTimer, JamSt.timer]
  split_ifs <;> rfl

lemma jamStepSite_outfeed_b_jt_outfeed_c (r : Bool) (dt tmo : ℚ) (pe : Loc → Bool) (j : JamSt) :
    (jamStepSite r dt tmo pe j .outfeed_b).jt_outfeed_c = j.jt_outfeed_c := by
  simp only [jamStepSite, JamSt.setTimer, JamSt.timer]
  split_ifs <;> rfl

lemma jamStepSite_outfeed_c_jt_infeed (r : Bool) (dt tmo : ℚ) (pe : Loc → Bool) (j : JamSt) :
    (jamStepSite r dt tmo pe j .outfeed_c).jt_infeed = j.jt_infeed := by
  simp only [jamStepSite, JamSt.setTimer, JamSt.timer]
  split_ifs <;> rfl

lemma jamStepSite_outfeed_c_jt_diverter (r : Bool) (dt tmo : ℚ) (pe : Loc → Bool) (j : JamSt) :
    (jamStepSite r dt tmo pe j .outfeed_c).jt_diverter = j.jt_diverter := by
  simp only [jamStepSite, JamSt.setTimer, JamSt.timer]
  split_ifs <;> rfl

lemma jamStepSite_outfeed_c_jt_outfeed_b (r : Bool) (dt tmo : ℚ) (pe : Loc → Bool) (j : JamSt) :
    (jamStepSite r dt tmo pe j .outfeed_c).jt_outfeed_b = j.jt_outfeed_b := by
  simp only [jamStepSite, JamSt.setTimer, JamSt.timer]
  split_ifs <;> rfl

lemma jamStepSite_outfeed_c_jt_outfeed_c (r : Bool) (dt tmo : ℚ) (pe : Loc → Bool) (j : JamSt) :
    (jamStepSite r dt tmo pe j .outfeed_c).jt_outfeed_c = (if pe .outfeed_c && r then j.jt_outfeed_c + dt else 0) := by
  simp only [jamStepSite, JamSt.setTimer, JamSt.timer]
  split_ifs <;> rfl

lemma jamClear_timer (t : Tags) (cr el : Bool) (j : JamSt) (l : Loc) :
    (jamClear t cr el j).timer l = j.timer l := by
  rcases hjl : j.location with _ | l2 <;> cases l <;>
    simp [jamClear, hjl, JamSt.timer] <;> split_ifs <;> rfl

lemma jamClear_notlatched (t : Tags) (cr el : Bool) (j : JamSt)
    (h : j.latched = false) : jamClear t cr el j = j := by
  simp [jamClear, h]

lemma jamClear_blocked (t : Tags) (cr el : Bool) (j : JamSt) (l : Loc)
    (hloc : j.location = some l) (hpe : peTag t l = true) :
    jamClear t cr el j = j := by
  simp [jamClear, hloc, hpe]

/-- The timer a site holds after the jam section of a scan. -/
lemma scanJam_timer (t : Tags) (dt : ℚ) (s : PLCState)
    (h : s.state = SystemState.RUNNING ∨ s.jam_latched = true) (l : Loc) :
    (scanJam t dt s).timer l = jamNewTimer t dt s l := by
  unfold scanJam jamDetect
  rw [jamClear_timer, if_pos h]
  have hto : ∀ l2 : Loc,
      (⟨s.jt_infeed, s.jt_diverter, s.jt_outfeed_b, s.jt_outfeed_c, s.jam_latched,
        s.jam_location, (scanSafety t s).fault_code⟩ : JamSt).timer l2 =
        plcJamTimer s l2 := by
    intro l2; cases l2 <;> rfl
  cases l
  case infeed =>
    rw [jamStepSite_timer_other _ _ _ _ _ (by decide),
        jamStepSite_timer_other _ _ _ _ _ (by decide),
        jamStepSite_timer_other _ _ _ _ _ (by decide),
        jamStepSite_timer_self, hto, jamNewTimer]
  case diverter =>
    rw [jamStepSite_timer_other _ _ _ _ _ (by decide),
        jamStepSite_timer_other _ _ _ _ _ (by decide),
        jamStepSite_timer_self, jamStepSite_timer_other _ _ _ _ _ (by decide),
        hto, jamNewTimer]
  case outfeed_b =>
    rw [jamStepSite_timer_other _ _ _ _ _ (by decide), jamStepSite_timer_self,
        jamStepSite_timer_other _ _ _ _ _ (by decide),
        jamStepSite_timer_other _ _ _ _ _ (by decide), hto, jamNewTimer]
  case outfeed_c =>
    rw [jamStepSite_timer_self, jamStepSite_timer_other _ _ _ _ _ (by decide),
        jamStepSite_timer_other _ _ _ _ _ (by decide),
        jamStepSite_timer_other _ _ _ _ _ (by decide), hto, jamNewTimer]

lemma jamStepSite_step_keeplatch (r : Bool) (dt tmo : ℚ) (pe : Loc → Bool)
    (j : JamSt) (l : Loc) (h0 : j.latched = true) :
    (jamStepSite r dt tmo pe j l).latched = true ∧
    (jamStepSite r dt tmo pe j l).location = j.location ∧
    (jamStepSite r dt tmo pe j l).fault_code = j.fault_code := by
  rw [jamStepSite_latched, jamStepSite_location, jamStepSite_fault]
  simp [h0]

/-- A latched jam never re-latches during detection: the chain keeps the
latch, its location and the fault code. -/
lemma jamDetect_keeplatch (t : Tags) (dt : ℚ) (stPre : SystemState) (j : JamSt)
    (h0 : j.latched = true) :
    (jamDetect t dt stPre j).latched = true ∧
    (jamDetect t dt stPre j).location = j.location ∧
    (jamDetect t dt stPre j).fault_code = j.fault_code := by
  unfold jamDetect
  rw [if_pos (Or.inr h0)]
  have s1 := jamStepSite_step_keeplatch (decide (stPre = SystemState.RUNNING)) dt
    t.rJamTimeoutSec (peTag t) j .infeed h0
  have s2 := jamStepSite_step_keeplatch (decide (stPre = SystemState.RUNNING)) dt
    t.rJamTimeoutSec (peTag t) _ .diverter s1.1
  have s3 := jamStepSite_step_keeplatch (decide (stPre = SystemState.RUNNING)) dt
    t.rJamTimeoutSec (peTag t) _ .outfeed_b s2.1
  have s4 := jamStepSite_step_keeplatch (decide (stPre = SystemState.RUNNING)) dt
    t.rJamTimeoutSec (peTag t) _ .outfeed_c s3.1
  refine ⟨s4.1, ?_, ?_⟩
  · rw [s4.2.1, s3.2.1, s2.2.1, s1.2.1]
  · rw [s4.2.2, s3.2.2, s2.2.2, s1.2.2]

/-- With a jam latched and a fault-clear rising edge, the scan clears the
latch iff the photoeye at the latched location is unblocked. -/
lemma scanJam_clear (t : Tags) (dt : ℚ) (s : PLCState) (l : Loc)
    (hl : s.jam_latched = true) (hlc : s.jam_location = some l)
    (hcr : clearRising t s = true) :
    ((scanJam t dt s).latched = false ↔ peTag t l = false) := by
  unfold scanJam
  have hd := jamDetect_keeplatch t dt s.state
    ⟨s.jt_infeed, s.jt_diverter, s.jt_outfeed_b, s.jt_outfeed_c, s.jam_latched,
     s.jam_location, (scanSafety t s).fault_code⟩ hl
  have hd2 := Eq.trans hd.2.1 hlc
  unfold jamClear
  rcases hpe : peTag t l with _ | _
  · simp [hd.1, hd2, hcr, hpe]
  · simp [hd.1, hd2, hcr, hpe]

/-- With no jam latched, state RUNNING, a positive timeout, and `l` the first
site in loop order whose new timer reaches the timeout, the jam section
latches at `l`. -/
lemma scanJam_latch_first (t : Tags) (dt : ℚ) (s : PLCState) (l : Loc)
    (hrun : s.state = SystemState.RUNNING) (h0 : s.jam_latched = false)
    (hpos : 0 < t.rJamTimeoutSec)
    (htr : t.rJamTimeoutSec ≤ jamNewTimer t dt s l)
    (hearlier : ∀ l2, locIdx l2 < locIdx l →
      jamNewTimer t dt s l2 < t.rJamTimeoutSec) :
    (scanJam t dt s).latched = true ∧ (scanJam t dt s).location = some l ∧
    (scanJam t dt s).fault_code = jamFaultCode l := by
  -- the triggering site's new timer is positive, so its PE is blocked
  have hpe : peTag t l = true := by
    by_contra hne
    rw [Bool.not_eq_true] at hne
    have hz : jamNewTimer t dt s l = 0 := by simp [jamNewTimer, hne]
    rw [hz] at htr
    linarith
  have hdet : (jamDetect t dt s.state
      ⟨s.jt_infeed, s.jt_diverter, s.jt_outfeed_b, s.jt_outfeed_c, s.jam_latched,
       s.jam_location, (scanSafety t s).fault_code⟩).latched = true ∧
      (jamDetect t dt s.state
      ⟨s.jt_infeed, s.jt_diverter, s.jt_outfeed_b, s.jt_outfeed_c, s.jam_latched,
       s.jam_location, (scanSafety t s).fault_code⟩).location = some l ∧
      (jamDetect t dt s.state
      ⟨s.jt_infeed, s.jt_diverter, s.jt_outfeed_b, s.jt_outfeed_c, s.jam_latched,
       s.jam_location, (scanSafety t s).fault_code⟩).fault_code = jamFaultCode l := by
    unfold jamDetect
    rw [if_pos (Or.inl hrun)]
    cases l
    case infeed =>
      simp only [jamNewTimer, plcJamTimer] at htr
      simp [hpe, hrun] at htr
      simp [jamStepSite_infeed_jt_infeed, jamStepSite_infeed_jt_diverter, jamStepSite_infeed_jt_outfeed_b, jamStepSite_infeed_jt_outfeed_c, jamStepSite_diverter_jt_infeed, jamStepSite_diverter_jt_diverter, jamStepSite_diverter_jt_outfeed_b, jamStepSite_diverter_jt_outfeed_c, jamStepSite_outfeed_b_jt_infeed, jamStepSite_outfeed_b_jt_diverter, jamStepSite_outfeed_b_jt_outfeed_b, jamStepSite_outfeed_b_jt_outfeed_c, jamStepSite_outfeed_c_jt_infeed, jamStepSite_outfeed_c_jt_diverter, jamStepSite_outfeed_c_jt_outfeed_b, jamStepSite_outfeed_c_jt_outfeed_c,
        jamStepSite_latched, jamStepSite_location, jamStepSite_fault,
        JamSt.timer, h0, hrun, hpe, htr, not_lt.mpr htr]
    case diverter =>
      simp only [jamNewTimer, plcJamTimer] at htr
      simp [hpe, hrun] at htr
      have he0 := hearlier .infeed (by decide)
      simp only [jamNewTimer, plcJamTimer] at he0
      simp [hrun] at he0
      simp [jamStepSite_infeed_jt_infeed, jamStepSite_infeed_jt_diverter, jamStepSite_infeed_jt_outfeed_b, jamStepSite_infeed_jt_outfeed_c, jamStepSite_diverter_jt_infeed, jamStepSite_diverter_jt_diverter, jamStepSite_diverter_jt_outfeed_b, jamStepSite_diverter_jt_outfeed_c, jamStepSite_outfeed_b_jt_infeed, jamStepSite_outfeed_b_jt_diverter, jamStepSite_outfeed_b_jt_outfeed_b, jamStepSite_outfeed_b_jt_outfeed_c, jamStepSite_outfeed_c_jt_infeed, jamStepSite_outfeed_c_jt_diverter, jamStepSite_outfeed_c_jt_outfeed_b, jamStepSite_outfeed_c_jt_outfeed_c,
        jamStepSite_latched, jamStepSite_location, jamStepSite_fault,
        JamSt.timer, h0, hrun, hpe, htr, not_lt.mpr htr, he0, not_le.mpr he0]
    case outfeed_b =>
      simp only [jamNewTimer, plcJamTimer] at htr
      simp [hpe, hrun] at htr
      have he0 := hearlier .infeed (by decide)
      simp only [jamNewTimer, plcJamTimer] at he0
      simp [hrun] at he0
      have he1 := hearlier .diverter (by decide)
      simp only [jamNewTimer, plcJamTimer] at he1
      simp [hrun] at he1
      simp [jamStepSite_infeed_jt_infeed, jamStepSite_infeed_jt_diverter, jamStepSite_infeed_jt_outfeed_b, jamStepSite_infeed_jt_outfeed_c, jamStepSite_diverter_jt_infeed, jamStepSite_diverter_jt_diverter, jamStepSite_diverter_jt_outfeed_b, jamStepSite_diverter_jt_outfeed_c, jamStepSite_outfeed_b_jt_infeed, jamStepSite_outfeed_b_jt_diverter, jamStepSite_outfeed_b_jt_outfeed_b, jamStepSite_outfeed_b_jt_outfeed_c, jamStepSite_outfeed_c_jt_infeed, jamStepSite_outfeed_c_jt_diverter, jamStepSite_outfeed_c_jt_outfeed_b, jamStepSite_outfeed_c_jt_outfeed_c,
        jamStepSite_latched, jamStepSite_location, jamStepSite_fault,
        JamSt.timer, h0, hrun, hpe, htr, not_lt.mpr htr, he0, not_le.mpr he0, he1, not_le.mpr he1]
    case outfeed_c =>
      simp only [jamNewTimer, plcJamTimer] at htr
      simp [hpe, hrun] at htr
      have he0 := hearlier .infeed (by decide)
      simp only [jamNewTimer, plcJamTimer] at he0
      simp [hrun] at he0
      have he1 := hearlier .diverter (by decide)
      simp only [jamNewTimer, plcJamTimer] at he1
      simp [hrun] at he1
      have he2 := hearlier .outfeed_b (by decide)
      simp only [jamNewTimer, plcJamTimer] at he2
      simp [hrun] at he2
      simp [jamStepSite_infeed_jt_infeed, jamStepSite_infeed_jt_diverter, jamStepSite_infeed_jt_outfeed_b, jamStepSite_infeed_jt_outfeed_c, jamStepSite_diverter_jt_infeed, jamStepSite_diverter_jt_diverter, jamStepSite_diverter_jt_outfeed_b, jamStepSite_diverter_jt_outfeed_c, jamStepSite_outfeed_b_jt_infeed, jamStepSite_outfeed_b_jt_diverter, jamStepSite_outfeed_b_jt_outfeed_b, jamStepSite_outfeed_b_jt_outfeed_c, jamStepSite_outfeed_c_jt_infeed, jamStepSite_outfeed_c_jt_diverter, jamStepSite_outfeed_c_jt_outfeed_b, jamStepSite_outfeed_c_jt_outfeed_c,
        jamStepSite_latched, jamStepSite_location, jamStepSite_fault,
        JamSt.timer, h0, hrun, hpe, htr, not_lt.mpr htr, he0, not_le.mpr he0, he1, not_le.mpr he1, he2, not_le.mpr he2]
  unfold scanJam
  rw [jamClear_blocked t _ _ _ l hdet.2.1 hpe]
  exact hdet

/-- C2: for every scan, (a) inside RUNNING-or-latched, each site's timer
becomes `dt` more if its PE is blocked and the state is RUNNING, else 0;
(b) outside RUNNING with no latched jam all four timers end 0; (c) with no
jam latched, a positive timeout, and site `l` the first (in the loop's
insertion order) whose new timer reaches the timeout, the jam latches at `l`
with its JAM_* code and location recorded; (d) on a fault-clear rising edge a
latched jam is cleared iff the photoeye at the latched location is
unblocked in this scan's input snapshot. -/
theorem c2_jam_detection (t : Tags) (dt : ℚ) (s : PLCState) :
    ((s.state = SystemState.RUNNING ∨ s.jam_latched = true) →
      ∀ l, plcJamTimer (scan t dt s).1 l = jamNewTimer t dt s l) ∧
    ((s.state ≠ SystemState.RUNNING ∧ s.jam_latched = false) →
      ∀ l, plcJamTimer (scan t dt s).1 l = 0) ∧
    (∀ l, s.state = SystemState.RUNNING → s.jam_latched = false →
      0 < t.rJamTimeoutSec → t.rJamTimeoutSec ≤ jamNewTimer t dt s l →
      (∀ l2, locIdx l2 < locIdx l → jamNewTimer t dt s l2 < t.rJamTimeoutSec) →
      (scan t dt s).1.jam_latched = true ∧
      (scan t dt s).1.jam_location = some l ∧
      (scan t dt s).1.fault_code = jamFaultCode l) ∧
    (∀ l, s.jam_latched = true → s.jam_location = some l →
      clearRising t s = true →
      ((scan t dt s).1.jam_latched = false ↔ peTag t l = false)) := by
  have htimer : ∀ l, plcJamTimer (scan t dt s).1 l = (scanJam t dt s).timer l := by
    intro l; cases l <;> rfl
  have hlat : (scan t dt s).1.jam_latched = (scanJam t dt s).latched := rfl
  have hloc : (scan t dt s).1.jam_location = (scanJam t dt s).location := rfl
  have hfc : (scan t dt s).1.fault_code = (scanJam t dt s).fault_code := rfl
  have hto : ∀ l2 : Loc,
      (⟨s.jt_infeed, s.jt_diverter, s.jt_outfeed_b, s.jt_outfeed_c, s.jam_latched,
        s.jam_location, (scanSafety t s).fault_code⟩ : JamSt).timer l2 =
        plcJamTimer s l2 := by
    intro l2; cases l2 <;> rfl
  refine ⟨?_, ?_, ?_, ?_⟩
  · intro h l
    rw [htimer, scanJam_timer t dt s h]
  · rintro ⟨h1, h2⟩ l
    rw [htimer]
    unfold scanJam jamDetect
    rw [jamClear_timer,
        if_neg (by simp [h2]; exact fun hh => absurd hh h1)]
    cases l <;> simp [JamSt.timer]
  · intro l hrun h0 hpos htr hearlier
    rw [hlat, hloc, hfc]
    exact scanJam_latch_first t dt s l hrun h0 hpos htr hearlier
  · intro l hl hlc hcr
    rw [hlat]
    exact scanJam_clear t dt s l hl hlc hcr

/-- C2 witness: a jam latched at the infeed is cleared by a fault-clear
rising edge when the infeed photoeye is unblocked. -/
theorem c2_jam_detection_witness :
    ((scan { bHMI_FaultClear := true } (1/50)
        { state := SystemState.FAULT, jam_latched := true,
          jam_location := some Loc.infeed,
          fault_code := FaultCode.JAM_INFEED }).1.jam_latched = false ↔
      peTag { bHMI_FaultClear := true } Loc.infeed = false) :=
  (c2_jam_detection { bHMI_FaultClear := true } (1/50)
      { state := SystemState.FAULT, jam_latched := true,
        jam_location := some Loc.infeed,
        fault_code := FaultCode.JAM_INFEED }).2.2.2 Loc.infeed rfl rfl rfl

/-! ## C4: routing-commit invariant -/

/-- The routing invariant of §8 of the spec: every box past the diverter is
routed, and an unrouted box cannot yet be a reject. -/
def RoutedInv (g : ConveyorConfig) (bs : List Box) : Prop :=
  ∀ b ∈ bs, (g.diverter_pe_pos ≤ b.position_mm → b.routed = true) ∧
    (b.routed = false → b.is_reject = false)

/-- One box preserves the routing invariant provided one step's travel cannot
carry it from before the diverter to at-or-past an outfeed. -/
lemma moveOneBox_routed_inv (g : ConveyorConfig) (jc : JamConfig) (rand : ℕ → ℚ)
    (d : ℚ) (dv : Bool) (st : ℚ) (i : ℕ) (b : Box)
    (hb : d ≤ g.outfeed_b_pos - g.diverter_pe_pos)
    (hc : d ≤ g.outfeed_c_pos - g.diverter_pe_pos)
    (h1 : g.diverter_pe_pos ≤ b.position_mm → b.routed = true)
    (h2 : b.routed = false → b.is_reject = false) :
    (g.diverter_pe_pos ≤ (moveOneBox g jc rand d dv st i b).box.position_mm →
      (moveOneBox g jc rand d dv st i b).box.routed = true) ∧
    ((moveOneBox g jc rand d dv st i b).box.routed = false →
      (moveOneBox g jc rand d dv st i b).box.is_reject = false) := by
  simp only [moveOneBox, moveBody]
  split_ifs <;> constructor <;> intro hh <;> simp_all <;>
    first
    | (exact h1 (by linarith))
    | (exact absurd (h1 (by linarith)) (by simp_all))
    | linarith

/-- The one-shot routing latch: a processed box stays routed once routed, and
a fresh false→true transition happens only at a position at or past the
diverter, committing is_reject from the diverter actuator. -/
lemma moveOneBox_routed_latch (g : ConveyorConfig) (jc : JamConfig)
    (rand : ℕ → ℚ) (d : ℚ) (dv : Bool) (st : ℚ) (i : ℕ) (b : Box) :
    (b.routed = true → (moveOneBox g jc rand d dv st i b).box.routed = true ∧
      (moveOneBox g jc rand d dv st i b).box.is_reject = b.is_reject) ∧
    ((moveOneBox g jc rand d dv st i b).box.routed = true →
      b.routed = true ∨
      (g.diverter_pe_pos ≤ (moveOneBox g jc rand d dv st i b).box.position_mm ∧
        (moveOneBox g jc rand d dv st i b).box.is_reject = dv)) := by
  simp only [moveOneBox, moveBody]
  split_ifs <;> constructor <;> intro hh <;> simp_all

/-- The whole _move_boxes loop preserves the routing invariant. -/
lemma moveBoxesAux_routed_inv (g : ConveyorConfig) (jc : JamConfig)
    (rand : ℕ → ℚ) (d : ℚ) (dv : Bool) (st : ℚ)
    (hb : d ≤ g.outfeed_b_pos - g.diverter_pe_pos)
    (hc : d ≤ g.outfeed_c_pos - g.diverter_pe_pos) :
    ∀ (bs : List Box) (i : ℕ), RoutedInv g bs →
      RoutedInv g (moveBoxesAux g jc rand d dv st i bs).active := by
  intro bs
  induction bs with
  | nil =>
    intro i _ b hmem
    simp [moveBoxesAux] at hmem
  | cons hd tl ih =>
    intro i hInv b hmem
    simp only [moveBoxesAux] at hmem
    rcases List.mem_append.mp hmem with hm | hm
    · have hhd := hInv hd (by simp)
      have hone := moveOneBox_routed_inv g jc rand d dv st i hd hb hc hhd.1 hhd.2
      rcases hs : (moveOneBox g jc rand d dv st i hd).stillActive with _ | _ <;>
        rw [hs] at hm <;> simp at hm
      rw [hm]
      exact hone
    · exact ih _ (fun x hx => hInv x (by simp [hx])) b hm

/-- C4 amended: provided one sub-step's travel distance (speed × dt) is at
most the diverter-to-outfeed distance (25 mm vs 1000 mm at the defaults),
_move_boxes preserves "every active box at or past the diverter is routed";
and unconditionally, routed is a one-shot latch that can only turn true in a
sub-step that leaves the box at or past the diverter, committing is_reject
from the current diverter actuator at the same moment. -/
theorem c4_amended (g : ConveyorConfig) (jc : JamConfig) (rand : ℕ → ℚ)
    (dt speed : ℚ) (dv : Bool) (st : ℚ) (i : ℕ) (active : List Box)
    (hb : speed * dt ≤ g.outfeed_b_pos - g.diverter_pe_pos)
    (hc : speed * dt ≤ g.outfeed_c_pos - g.diverter_pe_pos)
    (hInv : RoutedInv g active) :
    RoutedInv g (moveBoxes g jc rand dt speed dv st i active).active ∧
    (∀ (b : Box) (i2 : ℕ),
      (b.routed = true →
        (moveOneBox g jc rand (speed * dt) dv st i2 b).box.routed = true ∧
        (moveOneBox g jc rand (speed * dt) dv st i2 b).box.is_reject =
          b.is_reject) ∧
      ((moveOneBox g jc rand (speed * dt) dv st i2 b).box.routed = true →
        b.routed = true ∨
        (g.diverter_pe_pos ≤
            (moveOneBox g jc rand (speed * dt) dv st i2 b).box.position_mm ∧
          (moveOneBox g jc rand (speed * dt) dv st i2 b).box.is_reject = dv))) :=
  ⟨moveBoxesAux_routed_inv g jc rand (speed * dt) dv st hb hc active i hInv,
   fun b i2 => moveOneBox_routed_latch g jc rand (speed * dt) dv st i2 b⟩

/-- C4 counterexample: with a spec-legal geometry in which the outfeed sits
20 mm past the diverter, a default-speed sub-step (25 mm) carries a box from
1495 mm (before the diverter, invariant holds) to 1520 mm, which is past both
the diverter and the outfeed: the box stays active and unrouted, so "after
every physics sub-step, every active box with position ≥ diverter_pe_pos has
routed = true" is false as stated. -/
theorem c4_counterexample :
    RoutedInv { diverter_pe_pos := 1500, outfeed_b_pos := 1520,
                outfeed_c_pos := 1520 }
      [{ box_id := 1, position_mm := 1495, state := BoxState.ON_CONVEYOR }] ∧
    ¬ RoutedInv { diverter_pe_pos := 1500, outfeed_b_pos := 1520,
                  outfeed_c_pos := 1520 }
      (moveBoxes { diverter_pe_pos := 1500, outfeed_b_pos := 1520,
                   outfeed_c_pos := 1520 } {} (fun _ => 0) (1/20) 500 false 0 0
        [{ box_id := 1, position_mm := 1495, state := BoxState.ON_CONVEYOR }]).active := by
  unfold RoutedInv
  constructor
  · with_unfolding_all decide
  · with_unfolding_all decide

/-- C4 witness: at the default geometry and speed the invariant is preserved
across a sub-step. -/
theorem c4_amended_witness :
    RoutedInv {} (moveBoxes {} {} (fun _ => 0) (1/20) 500 false 0 0
      [{ box_id := 1, position_mm := 0, state := BoxState.AT_INFEED }]).active :=
  (c4_amended {} {} (fun _ => 0) (1/20) 500 false 0 0
      [{ box_id := 1, position_mm := 0, state := BoxState.AT_INFEED }]
      (by norm_num [ConveyorConfig.outfeed_b_pos, ConveyorConfig.diverter_pe_pos])
      (by norm_num [ConveyorConfig.outfeed_c_pos, ConveyorConfig.diverter_pe_pos])
      (by unfold RoutedInv; with_unfolding_all decide)).1

/-! ## C7: jam injection and the jam location draw -/

/-- The box _generate_box creates at rng cursor 0 with a certain-jam
configuration: is_jammed is pre-rolled, and nothing else about the jam. -/
def c7Box : Box :=
  { box_id := 1, position_mm := 0, state := .AT_INFEED, arrival_time := 0,
    is_jammed := true }

/-- C7 counterexample: the Box dataclass records no jam location at creation.
The created box c7Box, moved with the "random" jam config, becomes JAMMED at
the infeed under one draw stream but moves on (to position 25) under another:
the jam site is decided by draws consumed inside _move_boxes at movement
time, not pre-assigned at the box's creation. -/
theorem c7_counterexample :
    (generateBox { jams := { probability_per_box := 1 } } (fun _ => 0)
      {}).active_boxes = [c7Box] ∧
    (moveOneBox {} {} (fun _ => 0) 25 false 0 0 c7Box).box.state =
      BoxState.JAMMED ∧
    (moveOneBox {} {} (fun _ => (1:ℚ)/2) 25 false 0 0 c7Box).box.state =
      BoxState.AT_INFEED ∧
    (moveOneBox {} {} (fun _ => (1:ℚ)/2) 25 false 0 0 c7Box).box.position_mm =
      25 := by
  refine ⟨?_, ?_, ?_, ?_⟩ <;> with_unfolding_all decide

/-- C7 amended: is_jammed is pre-rolled at creation, but the jam location is
drawn inside _move_boxes (anew each sub-step: the configured fixed site, or a
fresh uniform choice when the config is "random"); a not-yet-jammed box with
is_jammed transitions to JAMMED, before moving, exactly when its position has
already reached the drawn site's position, and otherwise advances by the
step's distance. -/
theorem c7_amended (g : ConveyorConfig) (jc : JamConfig) (rand : ℕ → ℚ)
    (d : ℚ) (dv : Bool) (st : ℚ) (i : ℕ) (b : Box)
    (hs : b.state ≠ BoxState.JAMMED) (hj : b.is_jammed = true) :
    (jamPos g (getJamLocation jc rand i).1 ≤ b.position_mm →
      (moveOneBox g jc rand d dv st i b).box = { b with state := BoxState.JAMMED } ∧
      (moveOneBox g jc rand d dv st i b).stillActive = true ∧
      (moveOneBox g jc rand d dv st i b).events =
        [{ sim_time := st, etype := EventType.JAM, box_id := b.box_id }]) ∧
    (¬ jamPos g (getJamLocation jc rand i).1 ≤ b.position_mm →
      (moveOneBox g jc rand d dv st i b).box.position_mm = b.position_mm + d) ∧
    (∀ l, jc.jam_location = some l → (getJamLocation jc rand i).1 = l) ∧
    (jc.jam_location = none → (getJamLocation jc rand i).1 = chooseLoc (rand i)) := by
  refine ⟨?_, ?_, ?_, ?_⟩
  · intro h
    simp only [moveOneBox]
    rw [if_neg hs, if_pos hj, if_pos h]
    exact ⟨rfl, rfl, rfl⟩
  · intro h
    simp only [moveOneBox, moveBody]
    rw [if_neg hs, if_pos hj, if_neg h]
    split_ifs <;> rfl
  · intro l hl; simp [getJamLocation, hl]
  · intro hl; simp [getJamLocation, hl]

/-- C7 witness: with a fixed "diverter" jam config, a jammed box that reached
the diverter position stops there as JAMMED. -/
theorem c7_amended_witness :
    (moveOneBox {} { jam_location := some Loc.diverter } (fun _ => 0) 25 false
        0 0
        { box_id := 2, position_mm := 1500, state := BoxState.AT_DIVERTER,
          is_jammed := true, routed := true }).box =
      { box_id := 2, position_mm := 1500, state := BoxState.JAMMED,
        is_jammed := true, routed := true } :=
  ((c7_amended {} { jam_location := some Loc.diverter } (fun _ => 0) 25 false
      0 0
      { box_id := 2, position_mm := 1500, state := BoxState.AT_DIVERTER,
        is_jammed := true, routed := true }
      (by simp) rfl).1 le_rfl).1

/-! ## C8: operator auto-recovery timing -/

/-- C8 amended: the recovery timer advances by a hard-coded 0.05 per sub-step
call (the code's `# ~dt`), independent of the sub-step's actual length; it
arms on seeing iHMI_State = 3; and when the timer reaches 3.0 (i.e. after 60
calls, which is 3.0 s of simulated time only when every sub-step is the full
0.05 s) the recovery removes every JAMMED box, recomputes the photoeyes, runs two
scans around a bHMI_FaultClear pulse (consumed by the scan), and pulses
bHMI_Start if the state is then STOPPED. -/
theorem c8_amended (cfg : SimConfig) (st : SimState) :
    (st.recovering = true → st.jam_recovery_timer + 1/20 < 3 →
      autoRecoverJams cfg st =
        { st with jam_recovery_timer := st.jam_recovery_timer + 1/20 }) ∧
    (st.recovering = false → st.tags.iHMI_State = 3 →
      (autoRecoverJams cfg st).recovering = true ∧
      (autoRecoverJams cfg st).jam_recovery_timer = 1/20) ∧
    (st.recovering = true → 3 ≤ st.jam_recovery_timer + 1/20 →
      (autoRecoverJams cfg st).active_boxes =
        st.active_boxes.filter (fun b => !decide (b.state = BoxState.JAMMED)) ∧
      (∀ b ∈ (autoRecoverJams cfg st).active_boxes,
        b.state ≠ BoxState.JAMMED) ∧
      (autoRecoverJams cfg st).recovering = false ∧
      (autoRecoverJams cfg st).jam_recovery_timer = 0 ∧
      (autoRecoverJams cfg st).tags.bHMI_FaultClear = false ∧
      ((autoRecoverJams cfg st).tags.iHMI_State = 0 →
        (autoRecoverJams cfg st).tags.bHMI_Start = true)) := by
  have harm : ∀ h : ¬(st.tags.iHMI_State = 3 ∧ st.recovering = false),
      (if st.tags.iHMI_State = 3 ∧ st.recovering = false then
        { st with recovering := true, jam_recovery_timer := 0 } else st) = st :=
    fun h => if_neg h
  refine ⟨?_, ?_, ?_⟩
  · intro hr hlt
    simp only [autoRecoverJams]
    rw [harm (by simp [hr]), if_pos hr,
        if_neg (show ¬(3:ℚ) ≤ st.jam_recovery_timer + 1/20 from by linarith)]
  · intro hr h3
    simp only [autoRecoverJams]
    rw [if_pos (And.intro h3 hr)]
    norm_num
  · intro hr h3
    simp only [autoRecoverJams]
    rw [harm (by simp [hr]), if_pos hr,
        if_pos (show (3:ℚ) ≤ st.jam_recovery_timer + 1/20 from h3)]
    split_ifs with h0
    · refine ⟨rfl, ?_, rfl, rfl, rfl, fun _ => rfl⟩
      intro b hbm
      have := (List.mem_filter.mp hbm).2
      simpa using this
    · refine ⟨rfl, ?_, rfl, rfl, rfl, fun hc => absurd hc h0⟩
      intro b hbm
      have := (List.mem_filter.mp hbm).2
      simpa using this

/-- A driven run for the C8 counterexample: the control state is in FAULT
from a latched infeed jam with the jammed box still on the belt; the driver
then updates with fixed outer dt = 0.02 s (one sub-step each). -/
def c8Box : Box := { box_id := 1, position_mm := 0, state := .JAMMED, is_jammed := true }

def c8Plc : PLCState :=
  { state := .FAULT, fault_code := .JAM_INFEED, jam_latched := true,
    jam_location := some .infeed, jt_infeed := 4, prev_infeed_pe := true }

def c8Tags : Tags := { iHMI_State := 3, bInfeedPE := true }

def c8Cfg : SimConfig := { boxes := { arrival_rate_per_hour := 0 } }

def c8Init : SimState :=
  { active_boxes := [c8Box], boxes := [c8Box], plc := c8Plc, tags := c8Tags,
    next_arrival_time := none }

def c8Rand : ℕ → ℚ := fun _ => 0

def c8Run (n : ℕ) : SimState :=
  runSim c8Cfg c8Rand (List.replicate n (1/50)) c8Init

/-- The run's state after 20 sub-steps (0.4 s simulated, recovery timer 1.0)
and after 40 (0.8 s, timer 2.0): checkpoint literals for stepwise kernel
evaluation. -/
def c8PlcMid (cyc ft bt : ℚ) (bon : Bool) : PLCState :=
  { c8Plc with
    jt_infeed := 0
    metrics_jam_count := 1
    cycle_active := true
    cycle_timer := cyc
    fault_time := ft
    prev_jam_event := true
    prev_infeed_metrics := true
    blink_timer := bt
    blink_on := bon }

def c8TagsMid (red : Bool) : Tags :=
  { c8Tags with
    bAlarmBuzzer := true
    rHMI_JamCount := 1
    bStatusRed := red
    sHMI_FaultMsg := "JAM DETECTED AT INFEED (Station A)" }

def c8S20 : SimState :=
  { c8Init with
    sim_time := 2/5
    plc := c8PlcMid (2/5) (2/5) (2/5) false
    tags := c8TagsMid false
    jam_recovery_timer := 1
    recovering := true }

def c8S40 : SimState :=
  { c8Init with
    sim_time := 4/5
    plc := c8PlcMid (4/5) (4/5) (3/10) true
    tags := c8TagsMid true
    jam_recovery_timer := 2
    recovering := true }

lemma c8_chunk1 :
    runSim c8Cfg c8Rand (List.replicate 20 (1/50)) c8Init = c8S20 := by
  with_unfolding_all rfl

lemma c8_chunk2 :
    runSim c8Cfg c8Rand (List.replicate 20 (1/50)) c8S20 = c8S40 := by
  with_unfolding_all rfl

lemma c8_replicate_add (m n : ℕ) (st : SimState) :
    runSim c8Cfg c8Rand (List.replicate (m + n) (1/50)) st =
      runSim c8Cfg c8Rand (List.replicate n (1/50))
        (runSim c8Cfg c8Rand (List.replicate m (1/50)) st) := by
  unfold runSim
  rw [List.replicate_add, List.foldl_append]

/-- C8 counterexample: the run sits in FAULT from a jam at time 0 with the
jammed box on the belt; driven with 0.02 s sub-steps, the box is still there
after 59 sub-steps (1.18 s) and the recovery (box removal, JAM_CLEARED,
fault-clear pulse) fires on the 60th sub-step, at 1.2 s of simulated time —
not after 3.0 s as claimed, because the recovery timer advances by a
hard-coded 0.05 per call rather than by the sub-step's dt. -/
theorem c8_counterexample :
    (c8Run 0).plc.state = SystemState.FAULT ∧
    (c8Run 0).plc.fault_code = FaultCode.JAM_INFEED ∧
    (c8Run 0).active_boxes = [c8Box] ∧ c8Box.state = BoxState.JAMMED ∧
    (c8Run 0).sim_time = 0 ∧
    (c8Run 59).recovering = true ∧ (c8Run 59).active_boxes = [c8Box] ∧
    (c8Run 59).sim_time = 59/50 ∧
    (c8Run 60).active_boxes = [] ∧ (c8Run 60).recovering = false ∧
    (c8Run 60).sim_time = 6/5 ∧
    (c8Run 60).events =
      [{ sim_time := 6/5, etype := EventType.JAM_CLEARED, box_id := 1 }] ∧
    ((6:ℚ)/5 ≠ 3) := by
  have h59 : c8Run 59 = runSim c8Cfg c8Rand (List.replicate 19 (1/50)) c8S40 := by
    show runSim c8Cfg c8Rand (List.replicate (20 + (20 + 19)) (1/50)) c8Init = _
    rw [c8_replicate_add, c8_chunk1, c8_replicate_add, c8_chunk2]
  have h60 : c8Run 60 = runSim c8Cfg c8Rand (List.replicate 20 (1/50)) c8S40 := by
    show runSim c8Cfg c8Rand (List.replicate (20 + (20 + 20)) (1/50)) c8Init = _
    rw [c8_replicate_add, c8_chunk1, c8_replicate_add, c8_chunk2]
  refine ⟨?_, ?_, ?_, ?_, ?_, ?_, ?_, ?_, ?_, ?_, ?_, ?_, ?_⟩
  · with_unfolding_all decide
  · with_unfolding_all decide
  · with_unfolding_all decide
  · with_unfolding_all decide
  · with_unfolding_all decide
  · rw [h59]; with_unfolding_all decide
  · rw [h59]; with_unfolding_all decide
  · rw [h59]; with_unfolding_all decide
  · rw [h60]; with_unfolding_all decide
  · rw [h60]; with_unfolding_all decide
  · rw [h60]; with_unfolding_all decide
  · rw [h60]; with_unfolding_all decide
  · norm_num

/-- C8 witness: mid-recovery, one call advances the timer by exactly 0.05. -/
theorem c8_amended_witness :
    autoRecoverJams c8Cfg c8S20 =
      { c8S20 with jam_recovery_timer := c8S20.jam_recovery_timer + 1/20 } :=
  (c8_amended c8Cfg c8S20).1 rfl (by norm_num [c8S20])

end Conveyor
